import Mathlib

/-
Verification of the document ingestion and retrieval-augmented query
workflow of the QA chatbot service (src/app/main.py and companions).

The handlers are embedded as pure state-transition functions over an
explicit application state (database records, files on disk, vector
index contents).  External collaborators (PDF text extraction, the
chunking library, the vector index add call, the LLM pipeline) are
passed in as explicit outcomes, mirroring the points at which the
Python code calls out and may receive an exception.
-/

namespace QAApp

/-- A row of the `documents` table (app/models.py): id, unique filename,
filepath.  The timestamp column is irrelevant to the claims and omitted. -/
structure DocRecord where
  id : Nat
  filename : String
  filepath : String
  deriving Repr, DecidableEq

/-- A langchain `Document` as built in `upload_document`: page content plus
a string-keyed metadata dictionary (modelled as an association list). -/
structure Chunk where
  page_content : String
  metadata : List (String × String)
  deriving Repr, DecidableEq

/-- The observable state of the application: the relational `documents`
table, the set of file paths present under the upload directory, the
chunks held by the external vector index, and the next id the store
will assign. -/
structure AppState where
  documents : List DocRecord
  files : List String
  vectorIndex : List Chunk
  nextId : Nat
  deriving Repr, DecidableEq

/-- `os.path.join(UPLOAD_DIR, filename)` with `UPLOAD_DIR = "./uploads"`. -/
def uploadPath (filename : String) : String := "./uploads/" ++ filename

/-- `select(DBDocument).where(DBDocument.filename == filename)` followed by
`scalar_one_or_none()`. -/
def findByFilename (docs : List DocRecord) (fn : String) : Option DocRecord :=
  docs.find? (fun d => d.filename = fn)

/-- `select(DBDocument).where(DBDocument.id == doc_id)` followed by
`scalar_one_or_none()`. -/
def findById (docs : List DocRecord) (i : Nat) : Option DocRecord :=
  docs.find? (fun d => d.id = i)

/-- `open(file_path, "wb")` + write: after this the path exists on disk
(overwriting any previous content). -/
def writeFile (files : List String) (p : String) : List String :=
  if p ∈ files then files else p :: files

/-- `if os.path.exists(p): os.remove(p)`: after this the path is absent. -/
def removeFileIfExists (files : List String) (p : String) : List String :=
  files.filter (fun q => q ≠ p)

/-- The error classes `upload_document` can surface: the two specific
client errors (HTTP 400) and the generic server error (HTTP 500). -/
inductive UploadError where
  | duplicateName
  | emptyFile
  | serverError
  deriving Repr, DecidableEq

/-- True exactly on `Except.error`. -/
def isErr : Except ε α → Bool
  | Except.error _ => true
  | Except.ok _ => false

/-- The `upload_document` handler (app/main.py lines 119-161).

`extractResult` is the outcome of `extract_text_from_pdf` (which may raise),
`chunkResult` the outcome of the chunking call on the extracted text, and
`indexOk` whether `vectorstore.aadd_documents` succeeds.  The handler:
rejects a duplicate filename (400); rejects empty contents (400); writes
the file; extracts; chunks; commits the Document record; indexes the
chunks.  Any non-HTTPException failure after the write removes the file
(`os.remove`) and surfaces a generic 500; the record commit is not rolled
back. -/
def upload_document (st : AppState) (filename : String) (contents : List Nat)
    (extractResult : Except Unit String)
    (chunkResult : String → Except Unit (List String))
    (indexOk : Bool) :
    Except UploadError DocRecord × AppState :=
  let file_path := uploadPath filename
  match findByFilename st.documents filename with
  | some _ => (Except.error UploadError.duplicateName, st)
  | none =>
    if contents = [] then
      (Except.error UploadError.emptyFile, st)
    else
      let st1 : AppState := { st with files := writeFile st.files file_path }
      match extractResult with
      | Except.error _ =>
          (Except.error UploadError.serverError,
           { st1 with files := removeFileIfExists st1.files file_path })
      | Except.ok text =>
        match chunkResult text with
        | Except.error _ =>
            (Except.error UploadError.serverError,
             { st1 with files := removeFileIfExists st1.files file_path })
        | Except.ok chunks =>
          let docs := chunks.map (fun c =>
            ({ page_content := c, metadata := [("filename", filename)] } : Chunk))
          let newDoc : DocRecord :=
            { id := st.nextId, filename := filename, filepath := file_path }
          let st2 : AppState :=
            { st1 with documents := st1.documents ++ [newDoc], nextId := st.nextId + 1 }
          if indexOk then
            (Except.ok newDoc, { st2 with vectorIndex := st2.vectorIndex ++ docs })
          else
            (Except.error UploadError.serverError,
             { st2 with files := removeFileIfExists st2.files file_path })

/-- The `list_documents` handler: all records as (id, filename) pairs. -/
def list_documents (st : AppState) : List (Nat × String) :=
  st.documents.map (fun d => (d.id, d.filename))

/-- The error classes `delete_document` can surface. -/
inductive DeleteError where
  | notFound
  | serverError
  deriving Repr, DecidableEq

/-- The `delete_document` handler (app/main.py lines 171-185): locate the
record by id (404 if absent), remove the underlying file if it exists,
then delete the record.  The vector index is not touched. -/
def delete_document (st : AppState) (docId : Nat) :
    Except DeleteError String × AppState :=
  match findById st.documents docId with
  | none => (Except.error DeleteError.notFound, st)
  | some doc =>
      let st1 : AppState :=
        { st with files := removeFileIfExists st.files doc.filepath }
      (Except.ok "Document deleted",
       { st1 with documents := st1.documents.filter (fun d => d.id ≠ docId) })

/-- Python `dict.get(k)` on an association list. -/
def dictGet (d : List (String × String)) (k : String) : Option String :=
  (d.find? (fun kv => kv.1 = k)).map (fun kv => kv.2)

/-- Python `x or b` where `x` is an optional string: `None` and the empty
string are falsy and fall through to `b`. -/
def pyOrStr (a : Option String) (b : String) : String :=
  match a with
  | none => b
  | some s => if s = "" then b else s

/-- `result.get("result") or result.get("answer") or "No relevant answer
found."` (app/main.py line 197). -/
def askAnswer (result : List (String × String)) : String :=
  pyOrStr (dictGet result "result")
    (pyOrStr (dictGet result "answer") "No relevant answer found.")

/-- The per-chunk source extraction of the `ask` handler (lines 205-214):
empty/absent metadata yields "", a missing "filename" key yields "",
otherwise the filename value. -/
def sourceOf (md : List (String × String)) : String :=
  if md.isEmpty then ""
  else
    match dictGet md "filename" with
    | none => ""
    | some v => v

/-- The response schema of `/ask` (app/schemas.py `AskResponse`). -/
structure AskResponse where
  answer : String
  sources : List String
  deriving Repr, DecidableEq

/-- The `ask` handler (app/main.py lines 188-217), given the pipeline
result dictionary and the chunks returned by the standalone similarity
search: the answer is the fallback chain over the result dictionary, the
sources are the per-chunk filenames in retrieval order. -/
def ask (pipelineResult : List (String × String)) (retrieved : List Chunk) :
    AskResponse :=
  { answer := askAnswer pipelineResult,
    sources := retrieved.map (fun d => sourceOf d.metadata) }

/-- Fuel-indexed body of the chunker; the fuel always dominates the text
length, so the fuel-exhausted branch is only reached on empty text. -/
def chunksAux : Nat → List Char → List (List Char)
  | 0, s => [s]
  | fuel + 1, s =>
      if s.length ≤ 500 then [s]
      else s.take 500 :: chunksAux fuel (s.drop 450)

/-- Modelled from the spec: the repository's `chunk_text` delegates the
actual splitting to an external library splitter (configured with
chunk_size 500 and chunk_overlap 50) whose code is not part of this
repository; per the spec the Chunker "splits plain text into overlapping
fixed-size segments" with "target segment length 500 characters,
50-character overlap between consecutive segments".  This is the sliding
window of width 500 and stride 450: each segment but the last is exactly
500 characters and starts 450 characters after its predecessor. -/
def chunk_text (text : List Char) : List (List Char) :=
  chunksAux text.length text

/-- Two consecutive segments overlap by exactly 50 characters: the part of
the first segment past position 450 is exactly 50 characters long and
coincides with the first 50 characters of the second segment. -/
def Overlap (a b : List Char) : Prop :=
  a.drop 450 = b.take 50 ∧ (a.drop 450).length = 50

instance (a b : List Char) : Decidable (Overlap a b) := by
  unfold Overlap; infer_instance

/-! ## Theorems -/

/-- C4: an upload whose filename matches an existing Document record is
rejected with the duplicate-name client error, the state (in particular
the documents table) is unchanged, and the number of records bearing that
filename does not grow. -/
theorem upload_duplicate_rejected (st : AppState) (fn : String)
    (contents : List Nat) (er : Except Unit String)
    (cr : String → Except Unit (List String)) (idx : Bool) (d : DocRecord)
    (hdup : findByFilename st.documents fn = some d) :
    upload_document st fn contents er cr idx
        = (Except.error UploadError.duplicateName, st) ∧
    ((upload_document st fn contents er cr idx).2.documents.filter
        (fun r => r.filename = fn)).length
      = (st.documents.filter (fun r => r.filename = fn)).length := by
  constructor
  · unfold upload_document
    rw [hdup]
  · unfold upload_document
    rw [hdup]

/-- Witness for `upload_duplicate_rejected` at a concrete one-record state. -/
theorem upload_duplicate_rejected_witness :
    (let st : AppState :=
      { documents := [{ id := 1, filename := "a.pdf", filepath := "./uploads/a.pdf" }],
        files := ["./uploads/a.pdf"], vectorIndex := [], nextId := 2 };
     upload_document st "a.pdf" [7] (Except.ok "text") (fun _ => Except.ok ["c"]) true
        = (Except.error UploadError.duplicateName, st)) := by
  exact (upload_duplicate_rejected _ "a.pdf" [7] (Except.ok "text")
    (fun _ => Except.ok ["c"]) true
    { id := 1, filename := "a.pdf", filepath := "./uploads/a.pdf" } (by decide)).1

/-- C5: an upload with empty byte content (and a fresh filename) is rejected
with the empty-file client error and the state is unchanged: no record is
created and no file is written. -/
theorem upload_empty_rejected (st : AppState) (fn : String)
    (er : Except Unit String) (cr : String → Except Unit (List String))
    (idx : Bool) (hdup : findByFilename st.documents fn = none) :
    upload_document st fn [] er cr idx
        = (Except.error UploadError.emptyFile, st) := by
  unfold upload_document
  rw [hdup]
  simp

/-- Witness for `upload_empty_rejected` at the empty state. -/
theorem upload_empty_rejected_witness :
    upload_document
        { documents := [], files := [], vectorIndex := [], nextId := 1 }
        "a.pdf" [] (Except.ok "text") (fun _ => Except.ok ["c"]) true
      = (Except.error UploadError.emptyFile,
         { documents := [], files := [], vectorIndex := [], nextId := 1 }) :=
  upload_empty_rejected _ "a.pdf" (Except.ok "text")
    (fun _ => Except.ok ["c"]) true (by decide)

/-- C10: when the filename duplicates an existing record AND the byte
content is empty, the duplicate-name error wins: the duplicate check runs
before the content is examined, so the result is the duplicate-name error
and not the empty-payload error. -/
theorem upload_duplicate_checked_first (st : AppState) (fn : String)
    (er : Except Unit String) (cr : String → Except Unit (List String))
    (idx : Bool) (d : DocRecord)
    (hdup : findByFilename st.documents fn = some d) :
    (upload_document st fn [] er cr idx).1 = Except.error UploadError.duplicateName ∧
    (upload_document st fn [] er cr idx).1 ≠ Except.error UploadError.emptyFile := by
  unfold upload_document
  rw [hdup]
  exact ⟨rfl, by simp⟩

/-- Witness for `upload_duplicate_checked_first`. -/
theorem upload_duplicate_checked_first_witness :
    (upload_document
        { documents := [{ id := 1, filename := "a.pdf", filepath := "./uploads/a.pdf" }],
          files := [], vectorIndex := [], nextId := 2 }
        "a.pdf" [] (Except.ok "t") (fun _ => Except.ok []) true).1
      = Except.error UploadError.duplicateName :=
  (upload_duplicate_checked_first _ "a.pdf" (Except.ok "t")
    (fun _ => Except.ok []) true
    { id := 1, filename := "a.pdf", filepath := "./uploads/a.pdf" } (by decide)).1

/-- C7: deleting a nonexistent id yields the not-found error and changes
nothing; deleting an existing id removes the underlying file (if present)
and the record, so the subsequent document listing no longer contains the
id. -/
theorem delete_document_spec (st : AppState) (docId : Nat) :
    (findById st.documents docId = none →
        delete_document st docId = (Except.error DeleteError.notFound, st)) ∧
    (∀ doc, findById st.documents docId = some doc →
        (delete_document st docId).1 = Except.ok "Document deleted" ∧
        doc.filepath ∉ (delete_document st docId).2.files ∧
        ∀ p ∈ list_documents (delete_document st docId).2, p.1 ≠ docId) := by
  constructor
  · intro h
    unfold delete_document
    rw [h]
  · intro doc h
    unfold delete_document
    rw [h]
    refine ⟨rfl, ?_, ?_⟩
    · simp [removeFileIfExists]
    · intro p hp
      simp only [list_documents, List.mem_map] at hp
      obtain ⟨r, hr, hpr⟩ := hp
      simp only [List.mem_filter] at hr
      rcases hr with ⟨_, hid⟩
      subst hpr
      simpa using hid

/-- Witness for `delete_document_spec`: both branches at concrete states. -/
theorem delete_document_spec_witness :
    delete_document
        { documents := [], files := [], vectorIndex := [], nextId := 1 } 5
      = (Except.error DeleteError.notFound,
         { documents := [], files := [], vectorIndex := [], nextId := 1 }) ∧
    (delete_document
        { documents := [{ id := 5, filename := "a.pdf", filepath := "./uploads/a.pdf" }],
          files := ["./uploads/a.pdf"], vectorIndex := [], nextId := 6 } 5).1
      = Except.ok "Document deleted" := by
  constructor
  · exact (delete_document_spec _ 5).1 (by decide)
  · exact ((delete_document_spec _ 5).2
      { id := 5, filename := "a.pdf", filepath := "./uploads/a.pdf" } (by decide)).1

/-- C8: deleting an existing Document record leaves the vector index
contents unchanged: no operation is performed on the indexed chunks. -/
theorem delete_preserves_vector_index (st : AppState) (docId : Nat)
    (doc : DocRecord) (h : findById st.documents docId = some doc) :
    (delete_document st docId).2.vectorIndex = st.vectorIndex := by
  unfold delete_document
  rw [h]

/-- Witness for `delete_preserves_vector_index`. -/
theorem delete_preserves_vector_index_witness :
    (delete_document
        { documents := [{ id := 5, filename := "a.pdf", filepath := "./uploads/a.pdf" }],
          files := ["./uploads/a.pdf"],
          vectorIndex := [{ page_content := "c", metadata := [("filename", "a.pdf")] }],
          nextId := 6 } 5).2.vectorIndex
      = [{ page_content := "c", metadata := [("filename", "a.pdf")] }] :=
  delete_preserves_vector_index _ 5
    { id := 5, filename := "a.pdf", filepath := "./uploads/a.pdf" } (by decide)

/-- The fallback chain never produces the empty string: each stage either
yields a non-empty value or falls through, and the final placeholder is
non-empty. -/
theorem askAnswer_ne_empty (result : List (String × String)) :
    askAnswer result ≠ "" := by
  unfold askAnswer pyOrStr
  cases dictGet result "result" with
  | none =>
      cases dictGet result "answer" with
      | none => simp
      | some s => by_cases hs : s = "" <;> simp [hs]
  | some s =>
      by_cases hs : s = ""
      · cases dictGet result "answer" with
        | none => simp [hs]
        | some t => by_cases ht : t = "" <;> simp [hs, ht]
      · simp [hs]

/-- C3: the sources list returned by `ask` is the retrieved chunks mapped,
in retrieval order, to the filename in their metadata, with the empty
string substituted when the metadata is empty/absent or lacks the
"filename" key; with zero retrieved chunks the sources list is empty and
the answer is still non-empty. -/
theorem ask_sources_spec (pr : List (String × String)) (docs : List Chunk) :
    (ask pr docs).sources = docs.map (fun d => sourceOf d.metadata) ∧
    (∀ d : Chunk, d.metadata = [] → sourceOf d.metadata = "") ∧
    (∀ d : Chunk, dictGet d.metadata "filename" = none → sourceOf d.metadata = "") ∧
    (∀ d : Chunk, ∀ v, d.metadata ≠ [] → dictGet d.metadata "filename" = some v →
        sourceOf d.metadata = v) ∧
    (docs = [] → (ask pr docs).sources = [] ∧ (ask pr docs).answer ≠ "") := by
  refine ⟨rfl, ?_, ?_, ?_, ?_⟩
  · intro d hd
    simp [sourceOf, hd]
  · intro d hd
    unfold sourceOf
    by_cases he : d.metadata.isEmpty <;> simp [he, hd]
  · intro d v hne hv
    unfold sourceOf
    rw [if_neg (by simpa using hne), hv]
  · intro hdocs
    subst hdocs
    exact ⟨rfl, askAnswer_ne_empty pr⟩

/-- Witness for `ask_sources_spec`: a concrete run with one chunk carrying
a filename, one with empty metadata, one missing the key, and the
zero-chunk branch. -/
theorem ask_sources_spec_witness :
    (ask [("result", "the answer")]
        [{ page_content := "c1", metadata := [("filename", "a.pdf")] },
         { page_content := "c2", metadata := [] },
         { page_content := "c3", metadata := [("other", "x")] }]).sources
      = ["a.pdf", "", ""] ∧
    (ask [] []).sources = [] ∧ (ask [] []).answer ≠ "" := by
  constructor
  · rw [(ask_sources_spec [("result", "the answer")] _).1]
    decide
  · exact (ask_sources_spec [] []).2.2.2.2 rfl

/-- C6 counterexample: the pipeline result can contain the primary key
"result" bound to the empty string while the returned answer is the
alternate key's value, not that (empty) primary value — contradicting the
claim that the answer is the primary field's value whenever the field is
present. -/
theorem ask_answer_primary_counterexample :
    dictGet [("result", ""), ("answer", "fallback")] "result" = some "" ∧
    askAnswer [("result", ""), ("answer", "fallback")] = "fallback" ∧
    askAnswer [("result", ""), ("answer", "fallback")] ≠ "" := by
  refine ⟨rfl, rfl, by decide⟩

/-- C6 (amended): the answer is the primary "result" value when present
and non-empty; otherwise the alternate "answer" value when present and
non-empty; otherwise the fixed placeholder.  (Presence alone does not
suffice: empty values fall through, see the counterexample.) -/
theorem ask_answer_fallback_chain (r : List (String × String)) :
    (∀ s, dictGet r "result" = some s → s ≠ "" → askAnswer r = s) ∧
    (∀ s, (dictGet r "result" = none ∨ dictGet r "result" = some "") →
        dictGet r "answer" = some s → s ≠ "" → askAnswer r = s) ∧
    ((dictGet r "result" = none ∨ dictGet r "result" = some "") →
        (dictGet r "answer" = none ∨ dictGet r "answer" = some "") →
        askAnswer r = "No relevant answer found.") := by
  refine ⟨?_, ?_, ?_⟩
  · intro s hs hne
    unfold askAnswer
    rw [hs]
    simp [pyOrStr, hne]
  · intro s hr ha hne
    unfold askAnswer
    rw [ha]
    rcases hr with h | h <;> rw [h] <;> simp [pyOrStr, hne]
  · intro hr ha
    unfold askAnswer
    rcases hr with h | h <;> rcases ha with h2 | h2 <;> rw [h, h2] <;>
      simp [pyOrStr]

/-- Witness for `ask_answer_fallback_chain`: all three stages exercised at
concrete dictionaries. -/
theorem ask_answer_fallback_chain_witness :
    askAnswer [("result", "primary"), ("answer", "alt")] = "primary" ∧
    askAnswer [("result", ""), ("answer", "alt")] = "alt" ∧
    askAnswer [("answer", "")] = "No relevant answer found." := by
  refine ⟨?_, ?_, ?_⟩
  · exact (ask_answer_fallback_chain _).1 "primary" rfl (by decide)
  · exact (ask_answer_fallback_chain _).2.1 "alt" (Or.inr rfl) rfl (by decide)
  · exact (ask_answer_fallback_chain _).2.2 (Or.inl rfl) (Or.inr rfl)

/-- C9: when the pipeline result binds the primary key "result" to the
empty string, the returned answer is never that empty string: it is the
alternate key's value when that is present and non-empty, and the fixed
placeholder otherwise — the fallback substitutes on empty values, not
only on absent keys. -/
theorem ask_answer_empty_primary_falls_through (r : List (String × String))
    (h : dictGet r "result" = some "") :
    askAnswer r ≠ "" ∧
    (∀ s, dictGet r "answer" = some s → s ≠ "" → askAnswer r = s) ∧
    ((dictGet r "answer" = none ∨ dictGet r "answer" = some "") →
        askAnswer r = "No relevant answer found.") := by
  refine ⟨askAnswer_ne_empty r, ?_, ?_⟩
  · intro s ha hne
    unfold askAnswer
    rw [h, ha]
    simp [pyOrStr, hne]
  · intro ha
    unfold askAnswer
    rcases ha with h2 | h2 <;> rw [h, h2] <;> simp [pyOrStr]

/-- Removing a path always leaves the file set without that path. -/
theorem not_mem_removeFileIfExists (fs : List String) (p : String) :
    p ∉ removeFileIfExists fs p := by
  simp [removeFileIfExists]

/-- C1: for an upload that passes the duplicate and emptiness checks, any
failure (extraction, chunking, or indexing) leaves the written file
deleted; an indexing failure (after the record commit) leaves the
Document record committed and the vector index without the new entries;
an extraction or chunking failure (before the commit) leaves neither a
record nor a file, and the vector index untouched. -/
theorem upload_failure_cleanup (st : AppState) (fn : String)
    (contents : List Nat) (er : Except Unit String)
    (cr : String → Except Unit (List String)) (idx : Bool)
    (hdup : findByFilename st.documents fn = none) (hne : contents ≠ []) :
    (isErr (upload_document st fn contents er cr idx).1 = true →
        uploadPath fn ∉ (upload_document st fn contents er cr idx).2.files) ∧
    (∀ text chunks, er = Except.ok text → cr text = Except.ok chunks →
        idx = false →
        (upload_document st fn contents er cr idx).2.documents
            = st.documents
                ++ [{ id := st.nextId, filename := fn, filepath := uploadPath fn }] ∧
        (upload_document st fn contents er cr idx).2.vectorIndex
            = st.vectorIndex) ∧
    ((er = Except.error () ∨
        ∃ text, er = Except.ok text ∧ cr text = Except.error ()) →
        (upload_document st fn contents er cr idx).2.documents = st.documents ∧
        uploadPath fn ∉ (upload_document st fn contents er cr idx).2.files ∧
        (upload_document st fn contents er cr idx).2.vectorIndex
            = st.vectorIndex) := by
  refine ⟨?_, ?_, ?_⟩
  · intro herr
    cases er with
    | error e =>
        simp only [upload_document, hdup, if_neg hne]
        exact not_mem_removeFileIfExists _ _
    | ok text =>
        cases hc : cr text with
        | error e =>
            simp only [upload_document, hdup, if_neg hne, hc]
            exact not_mem_removeFileIfExists _ _
        | ok chunks =>
            cases idx with
            | false =>
                simp only [upload_document, hdup, if_neg hne, hc, Bool.false_eq_true,
                  if_false]
                exact not_mem_removeFileIfExists _ _
            | true =>
                simp only [upload_document, hdup, if_neg hne, hc, if_true, isErr]
                  at herr
                exact absurd herr (by simp)
  · intro text chunks hert hcr hidx
    subst hert hidx
    simp only [upload_document, hdup, if_neg hne, hcr, Bool.false_eq_true, if_false]
    simp
  · intro hfail
    rcases hfail with herr | ⟨text, hert, hcrt⟩
    · subst herr
      simp only [upload_document, hdup, if_neg hne]
      simp [removeFileIfExists]
    · subst hert
      simp only [upload_document, hdup, if_neg hne, hcrt]
      simp [removeFileIfExists]

/-- Witness for `upload_failure_cleanup`: a concrete indexing failure and a
concrete extraction failure at the empty state. -/
theorem upload_failure_cleanup_witness :
    ((upload_document
        { documents := [], files := [], vectorIndex := [], nextId := 1 }
        "a.pdf" [7] (Except.ok "text") (fun _ => Except.ok ["chunk"])
        false).2.documents
      = [{ id := 1, filename := "a.pdf", filepath := uploadPath "a.pdf" }]) ∧
    uploadPath "a.pdf" ∉
      (upload_document
        { documents := [], files := [], vectorIndex := [], nextId := 1 }
        "a.pdf" [7] (Except.ok "text") (fun _ => Except.ok ["chunk"])
        false).2.files ∧
    ((upload_document
        { documents := [], files := [], vectorIndex := [], nextId := 1 }
        "a.pdf" [7] (Except.error ()) (fun _ => Except.ok ["chunk"])
        true).2.documents = []) := by
  refine ⟨?_, ?_, ?_⟩
  · have h := upload_failure_cleanup
      { documents := [], files := [], vectorIndex := [], nextId := 1 }
      "a.pdf" [7] (Except.ok "text") (fun _ => Except.ok ["chunk"]) false
      (by decide) (by decide)
    simpa using (h.2.1 "text" ["chunk"] rfl rfl rfl).1
  · have h := upload_failure_cleanup
      { documents := [], files := [], vectorIndex := [], nextId := 1 }
      "a.pdf" [7] (Except.ok "text") (fun _ => Except.ok ["chunk"]) false
      (by decide) (by decide)
    exact h.1 (by decide)
  · have h := upload_failure_cleanup
      { documents := [], files := [], vectorIndex := [], nextId := 1 }
      "a.pdf" [7] (Except.error ()) (fun _ => Except.ok ["chunk"]) true
      (by decide) (by decide)
    exact (h.2.2 (Or.inl rfl)).1

/-- Witness for `ask_answer_empty_primary_falls_through`. -/
theorem ask_answer_empty_primary_falls_through_witness :
    askAnswer [("result", ""), ("answer", "alt")] = "alt" ∧
    askAnswer [("result", "")] = "No relevant answer found." := by
  constructor
  · exact (ask_answer_empty_primary_falls_through
      [("result", ""), ("answer", "alt")] rfl).2.1 "alt" rfl (by decide)
  · exact (ask_answer_empty_primary_falls_through
      [("result", "")] rfl).2.2 (Or.inl rfl)

/-! ### Chunker lemmas -/

/-- The fuel argument of `chunksAux` is irrelevant once it dominates the
text length. -/
theorem chunksAux_fuel_irrel (f1 : Nat) :
    ∀ f2 (s : List Char), s.length ≤ f1 → s.length ≤ f2 →
      chunksAux f1 s = chunksAux f2 s := by
  induction f1 with
  | zero =>
      intro f2 s h1 _
      have hs : s = [] := List.eq_nil_of_length_eq_zero (Nat.le_zero.mp h1)
      subst hs
      cases f2 <;> simp [chunksAux]
  | succ f ih =>
      intro f2 s h1 h2
      cases f2 with
      | zero =>
          have hs : s = [] := List.eq_nil_of_length_eq_zero (Nat.le_zero.mp h2)
          subst hs
          simp [chunksAux]
      | succ g =>
          simp only [chunksAux]
          by_cases hs : s.length ≤ 500
          · simp [hs]
          · rw [if_neg hs, if_neg hs]
            congr 1
            exact ih g (s.drop 450) (by simp; omega) (by simp; omega)

/-- Short texts (at most 500 characters) form a single segment. -/
theorem chunk_text_small (s : List Char) (h : s.length ≤ 500) :
    chunk_text s = [s] := by
  unfold chunk_text
  cases hl : s.length with
  | zero => simp [chunksAux]
  | succ k =>
      simp only [chunksAux]
      rw [if_pos (by omega)]

/-- Long texts (more than 500 characters) start with the 500-character
window and continue with the chunks of the text advanced by 450. -/
theorem chunk_text_cons (s : List Char) (h : 500 < s.length) :
    chunk_text s = s.take 500 :: chunk_text (s.drop 450) := by
  unfold chunk_text
  obtain ⟨k, hk⟩ : ∃ k, s.length = k + 1 := ⟨s.length - 1, by omega⟩
  rw [hk]
  simp only [chunksAux]
  rw [if_neg (by omega)]
  congr 1
  exact chunksAux_fuel_irrel k (s.drop 450).length (s.drop 450)
    (by simp; omega) le_rfl

/-- Segment count of the fuelled chunker: for texts longer than 50
characters and fuel dominating the length, the count is
`ceil((L - 50) / 450)`. -/
theorem chunksAux_count (fuel : Nat) :
    ∀ s : List Char, s.length ≤ fuel → 50 < s.length →
      (chunksAux fuel s).length = (s.length - 50 + 449) / 450 := by
  induction fuel with
  | zero => intro s h1 h2; omega
  | succ f ih =>
      intro s h1 h2
      simp only [chunksAux]
      by_cases hs : s.length ≤ 500
      · rw [if_pos hs]
        simp only [List.length_singleton]
        omega
      · rw [if_neg hs]
        simp only [List.length_cons]
        rw [ih (s.drop 450) (by simp; omega) (by simp; omega)]
        simp only [List.length_drop]
        omega

/-- Every segment of the fuelled chunker is at most 500 characters long. -/
theorem chunksAux_le (fuel : Nat) :
    ∀ s : List Char, s.length ≤ fuel →
      ∀ c ∈ chunksAux fuel s, c.length ≤ 500 := by
  induction fuel with
  | zero =>
      intro s h1 c hc
      simp only [chunksAux, List.mem_singleton] at hc
      subst hc
      omega
  | succ f ih =>
      intro s h1 c hc
      simp only [chunksAux] at hc
      by_cases hs : s.length ≤ 500
      · rw [if_pos hs] at hc
        simp only [List.mem_singleton] at hc
        subst hc
        exact hs
      · rw [if_neg hs] at hc
        rcases List.mem_cons.mp hc with h | h
        · subst h
          simp [List.length_take]
        · exact ih (s.drop 450) (by simp; omega) c h

/-- The first segment produced by the fuelled chunker is always the
500-character prefix of the text. -/
theorem chunksAux_head (fuel : Nat) (s : List Char) (h : s.length ≤ fuel) :
    (chunksAux fuel s).head? = some (s.take 500) := by
  cases fuel with
  | zero =>
      have hs : s = [] := List.eq_nil_of_length_eq_zero (Nat.le_zero.mp h)
      subst hs
      simp [chunksAux]
  | succ f =>
      simp only [chunksAux]
      by_cases hs : s.length ≤ 500
      · rw [if_pos hs]
        simp [List.take_of_length_le hs]
      · rw [if_neg hs]
        rfl

/-- Consecutive segments of the fuelled chunker overlap by exactly 50
characters. -/
theorem chunksAux_chain (fuel : Nat) :
    ∀ s : List Char, s.length ≤ fuel →
      List.Chain' Overlap (chunksAux fuel s) := by
  induction fuel with
  | zero => intro s _; simp [chunksAux]
  | succ f ih =>
      intro s h
      simp only [chunksAux]
      by_cases hs : s.length ≤ 500
      · rw [if_pos hs]; simp
      · rw [if_neg hs]
        rw [List.chain'_cons']
        refine ⟨?_, ih (s.drop 450) (by simp; omega)⟩
        intro b hb
        have hd : (chunksAux f (s.drop 450)).head? = some ((s.drop 450).take 500) :=
          chunksAux_head f (s.drop 450) (by simp; omega)
        rw [hd, Option.mem_some_iff] at hb
        subst hb
        constructor
        · rw [List.drop_take, List.take_take]
          norm_num
        · simp only [List.length_drop, List.length_take]
          omega

/-- C2: chunking a text of length L (with window 500 and overlap 50)
produces, for L > 50, exactly `ceil((L - 50) / 450)` segments (matching
the claim's "approximately"); every segment is at most 500 characters;
and each pair of consecutive segments overlaps by exactly 50 characters
(the 50-character suffix at position 450 of the earlier segment equals
the 50-character prefix of the later one). -/
theorem chunk_text_spec (s : List Char) (h : 50 < s.length) :
    (chunk_text s).length = (s.length - 50 + 449) / 450 ∧
    (∀ c ∈ chunk_text s, c.length ≤ 500) ∧
    List.Chain' Overlap (chunk_text s) := by
  unfold chunk_text
  exact ⟨chunksAux_count s.length s le_rfl h,
         chunksAux_le s.length s le_rfl,
         chunksAux_chain s.length s le_rfl⟩

set_option maxRecDepth 10000 in
/-- Witness for `chunk_text_spec` on a concrete 600-character text: two
segments, each within the bound, overlapping by exactly 50 characters. -/
theorem chunk_text_spec_witness :
    50 < (List.replicate 600 'a').length ∧
    ((chunk_text (List.replicate 600 'a')).length
        = ((List.replicate 600 'a').length - 50 + 449) / 450 ∧
     (∀ c ∈ chunk_text (List.replicate 600 'a'), c.length ≤ 500) ∧
     List.Chain' Overlap (chunk_text (List.replicate 600 'a'))) :=
  ⟨by decide, chunk_text_spec (List.replicate 600 'a') (by decide)⟩

end QAApp
